import Mathlib

/-!
Shallow embedding of programs/bloodchain-program/src/lib.rs.

The program stores blood-donation records in a Solana account byte buffer.
We model bytes as natural numbers, Rust slices as lists, and each fallible
Rust computation as a value of an outcome type that distinguishes a panic
(out-of-bounds slicing, length-mismatched copy_from_slice) from a returned
ProgramError and from a successful value.
-/

/-- One byte of account data or instruction data, modelled as a Nat. -/
abbrev Byte := Nat

/-- The ProgramError variants that the program can produce. -/
inductive ProgramError where
  | invalidInstructionData
  | invalidAccountData
  | uninitializedAccount
  | notEnoughAccountKeys
  deriving DecidableEq, Repr

/-- Outcome of a Rust computation: a panic, a typed ProgramError, or a value. -/
inductive RRes (α : Type) where
  | panic
  | err (e : ProgramError)
  | ok (a : α)
  deriving DecidableEq, Repr

/-- True exactly on the ok outcome. -/
def RRes.isOk {α : Type} : RRes α → Bool
  | .ok _ => true
  | _ => false

/-- The Donation struct: donor_name is a 32-byte array, blood_type a 3-byte
array (both modelled as lists whose length is carried by hypotheses), and
date a u64 (a Nat below 2 to the 64th wherever it matters). -/
structure Donation where
  donor_name : List Byte
  blood_type : List Byte
  date : Nat
  deriving DecidableEq, Repr

/-- Donation::LEN from the Pack impl. -/
def Donation.LEN : Nat := 40

/-- u64::to_le_bytes: the 8 little-endian bytes of a u64 value. -/
def u64ToLeBytes (n : Nat) : List Byte :=
  (List.range 8).map fun i => n / 256 ^ i % 256

/-- u64::from_le_bytes on a byte slice, least-significant byte first. -/
def leBytesToNat (bs : List Byte) : Nat :=
  bs.foldr (fun b acc => b + 256 * acc) 0

/-- Rust dst[a..b].copy_from_slice(src): panics if the range a..b is out of
bounds for buf or if src does not have exactly the length of the range;
otherwise replaces buf[a..b] by src. -/
def writeRange (buf : List Byte) (a b : Nat) (src : List Byte) : RRes (List Byte) :=
  if a ≤ b ∧ b ≤ buf.length then
    if src.length = b - a then .ok (buf.take a ++ src ++ buf.drop b)
    else .panic
  else .panic

/-- Donation::unpack_from_slice: src[..32] (panics if src is shorter than 32),
src[32..35] (panics if shorter than 35), then src[35..].try_into for the u64,
which errs with InvalidInstructionData unless the remainder has exactly 8
bytes. -/
def unpackFromSlice (src : List Byte) : RRes Donation :=
  if 32 ≤ src.length then
    if 35 ≤ src.length then
      if src.length - 35 = 8 then
        .ok ⟨src.take 32, (src.drop 32).take 3, leBytesToNat (src.drop 35)⟩
      else .err .invalidInstructionData
    else .panic
  else .panic

/-- Donation::pack_into_slice: dst[..32].copy_from_slice(donor_name), then
dst[32..35].copy_from_slice(blood_type), then
dst[35..].copy_from_slice(date.to_le_bytes()). -/
def packIntoSlice (d : Donation) (dst : List Byte) : RRes (List Byte) :=
  match writeRange dst 0 32 d.donor_name with
  | .ok d1 =>
    match writeRange d1 32 35 d.blood_type with
    | .ok d2 => writeRange d2 35 d2.length (u64ToLeBytes d.date)
    | .err e => .err e
    | .panic => .panic
  | .err e => .err e
  | .panic => .panic

/-- Donation::is_initialized from the IsInitialized impl: always true. -/
def Donation.isInit (_ : Donation) : Bool := true

/-- Pack::unpack from the Solana SDK program_pack module (library code, not in
this repository): unpack_unchecked first rejects any input whose length is not
exactly Donation::LEN with InvalidAccountData, then calls unpack_from_slice,
then rejects uninitialized values with UninitializedAccount. -/
def Donation.unpack (input : List Byte) : RRes Donation :=
  if input.length = Donation.LEN then
    match unpackFromSlice input with
    | .ok v => if v.isInit then .ok v else .err .uninitializedAccount
    | .err e => .err e
    | .panic => .panic
  else .err .invalidAccountData

/-- unpack_donation: data[..32] (panics if data is shorter than 32),
data[32..35] (panics if shorter than 35), then data[35..].try_into for the
u64, which errs with InvalidInstructionData unless exactly 8 bytes remain. -/
def unpackDonation (data : List Byte) : RRes Donation :=
  if 32 ≤ data.length then
    if 35 ≤ data.length then
      if data.length - 35 = 8 then
        .ok ⟨data.take 32, (data.drop 32).take 3, leBytesToNat (data.drop 35)⟩
      else .err .invalidInstructionData
    else .panic
  else .panic

/-- The bytes pack_donation_history appends for one donation: donor_name,
then blood_type, then the 8 little-endian date bytes. -/
def packRecordBytes (d : Donation) : List Byte :=
  d.donor_name ++ d.blood_type ++ u64ToLeBytes d.date

/-- pack_donation_history: builds a Vec by extending it with each donation
in order; it never fails. -/
def packDonationHistory (history : List Donation) : RRes (List Byte) :=
  .ok (history.foldl (fun result d => result ++ packRecordBytes d) [])

/-- The while loop of get_donation_history, over the remaining suffix of the
account data. While bytes remain, it slices the next Donation::LEN-byte
window (panicking when fewer than Donation::LEN bytes remain, since
data[index..index+LEN] is then out of bounds), unpacks it, pushes the result
and advances by Donation::LEN. The fuel argument only bounds the recursion
depth: each iteration consumes Donation::LEN bytes, so an initial fuel of
data.length is never exhausted and the fuel-zero branch is unreachable. -/
def scanSteps : Nat → List Byte → List Donation → RRes (List Donation)
  | fuel, data, acc =>
    if data.length = 0 then .ok acc
    else if data.length < Donation.LEN then .panic
    else
      match fuel with
      | 0 => .panic
      | fuel2 + 1 =>
        match Donation.unpack (data.take Donation.LEN) with
        | .ok d => scanSteps fuel2 (data.drop Donation.LEN) (acc ++ [d])
        | .err e => .err e
        | .panic => .panic

/-- get_donation_history: scan the whole account data from offset 0. -/
def getDonationHistory (data : List Byte) : RRes (List Donation) :=
  scanSteps data.length data []

/-- add_donation. Accounts are modelled by the list of their data buffers.
An empty account list errs with NotEnoughAccountKeys; otherwise the payload
is unpacked, the existing history is scanned from the first account, the
new donation is pushed, and the repacked history is copied over the account
data with copy_from_slice, which panics unless the lengths agree. The
result pairs the returned outcome with the account buffers after the call. -/
def addDonation (accounts : List (List Byte)) (payload : List Byte) :
    RRes Unit × List (List Byte) :=
  match accounts with
  | [] => (.err .notEnoughAccountKeys, [])
  | acct :: rest =>
    match unpackDonation payload with
    | .panic => (.panic, acct :: rest)
    | .err e => (.err e, acct :: rest)
    | .ok donation =>
      match getDonationHistory acct with
      | .panic => (.panic, acct :: rest)
      | .err e => (.err e, acct :: rest)
      | .ok hist =>
        match packDonationHistory (hist ++ [donation]) with
        | .panic => (.panic, acct :: rest)
        | .err e => (.err e, acct :: rest)
        | .ok bytes =>
          if bytes.length = acct.length then (.ok (), bytes :: rest)
          else (.panic, acct :: rest)

/-- The all-zero donation value: 32 zero name bytes, 3 zero blood-type
bytes, date zero. -/
def zeroDonation : Donation :=
  ⟨List.replicate 32 0, List.replicate 3 0, 0⟩

/-- Any exactly-40-byte window fails Pack::unpack: the length gate passes,
but the date field try_into sees only 40 - 35 = 5 bytes instead of 8. -/
theorem unpack_window_err (xs : List Byte) (h : xs.length = 40) :
    Donation.unpack xs = .err .invalidInstructionData := by
  unfold Donation.unpack unpackFromSlice
  rw [h]
  simp [Donation.LEN]

/-- The scan loop returns ok only when the remaining data is empty, since
every 40-byte window fails to unpack; the accumulator is returned as is. -/
theorem scanSteps_ok_empty (fuel : Nat) (data : List Byte) (acc res : List Donation)
    (h : scanSteps fuel data acc = .ok res) : data = [] ∧ res = acc := by
  unfold scanSteps at h
  by_cases h0 : data.length = 0
  · rw [if_pos h0] at h
    refine ⟨List.length_eq_zero.mp h0, ?_⟩
    cases h
    rfl
  · rw [if_neg h0] at h
    by_cases h40 : data.length < Donation.LEN
    · rw [if_pos h40] at h
      cases h
    · rw [if_neg h40] at h
      cases fuel with
      | zero => cases h
      | succ fuel2 =>
        rw [unpack_window_err (data.take Donation.LEN) ?_] at h
        · cases h
        · have h1 : Donation.LEN ≤ data.length := Nat.le_of_not_lt h40
          simp [List.length_take, Donation.LEN] at h1 ⊢
          omega

/-- get_donation_history succeeds only on an empty account buffer and then
yields the empty history. -/
theorem getDonationHistory_ok (data : List Byte) (res : List Donation)
    (h : getDonationHistory data = .ok res) : data = [] ∧ res = [] := by
  unfold getDonationHistory at h
  exact scanSteps_ok_empty data.length data [] res h

/-- A successfully unpacked donation has a 32-byte donor_name and a 3-byte
blood_type. -/
theorem unpackDonation_ok_shape (payload : List Byte) (d : Donation)
    (h : unpackDonation payload = .ok d) :
    d.donor_name.length = 32 ∧ d.blood_type.length = 3 := by
  unfold unpackDonation at h
  by_cases h32 : 32 ≤ payload.length
  · rw [if_pos h32] at h
    by_cases h35 : 35 ≤ payload.length
    · rw [if_pos h35] at h
      by_cases h8 : payload.length - 35 = 8
      · rw [if_pos h8] at h
        cases h
        constructor
        · simp [List.length_take]
          omega
        · simp [List.length_take, List.length_drop]
          omega
      · rw [if_neg h8] at h
        cases h
    · rw [if_neg h35] at h
      cases h
  · rw [if_neg h32] at h
    cases h

/-- to_le_bytes of a u64 always has 8 bytes. -/
theorem u64ToLeBytes_length (n : Nat) : (u64ToLeBytes n).length = 8 := by
  simp [u64ToLeBytes]

/-- add_donation either leaves the account buffers untouched or returns ok. -/
theorem addDonation_snd_or_ok (accounts : List (List Byte)) (payload : List Byte) :
    (addDonation accounts payload).2 = accounts ∨
      (addDonation accounts payload).1 = .ok () := by
  cases accounts with
  | nil => left; rfl
  | cons acct rest =>
    simp only [addDonation]
    cases unpackDonation payload with
    | panic => left; rfl
    | err e => left; rfl
    | ok donation =>
      dsimp only
      cases getDonationHistory acct with
      | panic => left; rfl
      | err e => left; rfl
      | ok hist =>
        dsimp only [packDonationHistory]
        split
        · right; rfl
        · left; rfl

/-- C1: the claimed 40-byte round trip does not exist in the code. Packing
any Record into a Donation::LEN = 40 byte destination panics, because the
three fields occupy 32 + 3 + 8 = 43 bytes and the final
dst[35..].copy_from_slice of the 8 date bytes sees a 5-byte range. Shown
here on the all-zero donation and a 40-byte destination. -/
theorem pack_into_40_byte_slot_panics :
    packIntoSlice zeroDonation (List.replicate 40 0) = .panic := by decide

/-- C2: the encoding of a single record is 43 bytes, not 40.
pack_donation_history on the one-element history holding the all-zero
donation produces the 43-byte zero buffer, so the persisted content for n
records has length 43 * n rather than 40 * n. -/
theorem pack_history_single_record_43_bytes :
    packDonationHistory [zeroDonation] = .ok (List.replicate 43 0) ∧
      (List.replicate 43 0).length = 43 := by decide

/-- C3: decode on 39 bytes errs as claimed, but decode on 40 bytes also
errs instead of succeeding (only 43-byte inputs decode, since the date
try_into needs 8 bytes after offset 35), and a 10-byte input panics at the
data[..32] slice instead of returning a typed error. -/
theorem unpack_donation_length_behaviour :
    unpackDonation (List.replicate 39 0) = .err .invalidInstructionData ∧
      unpackDonation (List.replicate 40 0) = .err .invalidInstructionData ∧
      unpackDonation (List.replicate 10 0) = .panic := by decide

/-- C4: appending the first record to an initially empty buffer never
leaves a scannable record. With an empty account buffer and a decodable
43-byte payload, add_donation panics at the final copy_from_slice (43
repacked bytes against a 0-byte account) and the buffer is unchanged, so no
appended sequence can ever be returned by a scan. -/
theorem append_to_empty_buffer_panics :
    addDonation [[]] (List.replicate 43 0) = (.panic, [[]]) := by decide

/-- C5: an append with exactly 40 free bytes does not succeed. On a 40-byte
zeroed account (room for exactly one claimed record) with a decodable
payload, add_donation returns InvalidInstructionData from scanning the
existing buffer; no BufferFull path exists anywhere in the code and no
append ever succeeds. -/
theorem append_with_40_free_bytes_errs :
    addDonation [List.replicate 40 0] (List.replicate 43 0) =
      (.err .invalidInstructionData, [List.replicate 40 0]) := by decide

/-- C6: add_donation is atomic on failure: whenever it does not return ok,
the account buffers after the call are exactly the buffers before it. All
error returns happen before the single copy_from_slice, and
copy_from_slice itself checks lengths before writing, so a panic there
also leaves the buffer untouched. -/
theorem add_donation_failure_preserves_buffer (accounts : List (List Byte))
    (payload : List Byte)
    (hfail : (addDonation accounts payload).1.isOk = false) :
    (addDonation accounts payload).2 = accounts := by
  rcases addDonation_snd_or_ok accounts payload with h | h
  · exact h
  · rw [h] at hfail
    simp [RRes.isOk] at hfail

/-- C6 witness: a concrete failing append (empty payload, one empty
account) that leaves the account buffers unchanged. -/
theorem add_donation_failure_preserves_buffer_witness :
    (addDonation [[]] []).1.isOk = false ∧ (addDonation [[]] []).2 = [[]] :=
  ⟨by decide, add_donation_failure_preserves_buffer [[]] [] (by decide)⟩

/-- C7: the scan loop reads past the end of the buffer when the occupied
length is not a multiple of 40: on a 39-byte buffer the loop enters (39 >
0) and slices data[0..40], which is out of bounds, so get_donation_history
panics instead of stopping cleanly or returning a typed UnalignedBuffer
failure. -/
theorem scan_39_byte_buffer_panics :
    getDonationHistory (List.replicate 39 0) = .panic := by decide

/-- C8: scanning an empty account buffer succeeds with the empty history:
the while loop of get_donation_history is never entered. -/
theorem scan_empty_buffer_ok : getDonationHistory [] = .ok [] := rfl

/-- C9: get_donation_history is a pure function of the buffer bytes: two
scans of the same unmodified buffer that both succeed return the same
record sequence. -/
theorem get_donation_history_deterministic (data : List Byte)
    (h1 h2 : List Donation) (e1 : getDonationHistory data = .ok h1)
    (e2 : getDonationHistory data = .ok h2) : h1 = h2 := by
  rw [e1] at e2
  cases e2
  rfl

/-- C9 witness: both hypotheses hold on the empty buffer, and the theorem
applied there gives the equality of the two returned sequences. -/
theorem get_donation_history_deterministic_witness :
    getDonationHistory [] = .ok [] ∧ ([] : List Donation) = [] :=
  ⟨rfl, get_donation_history_deterministic [] [] [] rfl rfl⟩

/-- C10: add_donation never returns ok, for every account state and every
payload: either an account is missing, or the payload fails to unpack, or
the history scan fails on a non-empty buffer (every 40-byte window errs in
unpack, and a short tail panics), or — when the buffer is empty — the
repacked 43-byte-per-record history cannot be copied over the 0-byte
account data and copy_from_slice panics. The success path is dead code. -/
theorem add_donation_never_succeeds (accounts : List (List Byte))
    (payload : List Byte) : (addDonation accounts payload).1.isOk = false := by
  cases accounts with
  | nil => rfl
  | cons acct rest =>
    simp only [addDonation]
    cases hu : unpackDonation payload with
    | panic => rfl
    | err e => rfl
    | ok donation =>
      dsimp only
      cases hg : getDonationHistory acct with
      | panic => rfl
      | err e => rfl
      | ok hist =>
        obtain ⟨ha, hh⟩ := getDonationHistory_ok acct hist hg
        obtain ⟨hn, hb⟩ := unpackDonation_ok_shape payload donation hu
        subst ha
        subst hh
        have hlen : (packRecordBytes donation).length = 43 := by
          simp [packRecordBytes, hn, hb, u64ToLeBytes_length]
        simp [packDonationHistory, hlen, RRes.isOk]
